import Mathlib

/-!
Verification development for the LAB4-GPC software renderer
(src/main.rs, src/shaders.rs).  Machine floats (f32) are modelled as
exact rationals; transcendental f32 operations (sin, cos, normalize,
powf) and the external 2D noise generator are modelled as abstract
function parameters, so every shader definition is a pure function of
its inputs and those parameters.
-/

namespace Lab4

/-- Rust saturating cast `f as usize` (for the magnitudes occurring in this
program, far below `usize::MAX`): negative values saturate to 0, otherwise
the value is truncated toward zero. -/
def ratToUsize (q : ℚ) : ℕ :=
  if q ≤ 0 then 0 else ⌊q⌋.toNat

/-- Rust saturating cast `f as u8`: negative values saturate to 0, values
above 255 saturate to 255, otherwise truncation toward zero. -/
def ratToU8 (q : ℚ) : ℕ :=
  min 255 (ratToUsize q)

/-- f32 `trunc` (round toward zero). -/
def ratTrunc (q : ℚ) : ℤ :=
  if q < 0 then ⌈q⌉ else ⌊q⌋

/-- f32 `fract`: `self - self.trunc()` (negative for negative inputs). -/
def fract (q : ℚ) : ℚ :=
  q - (ratTrunc q : ℚ)

/-- nalgebra_glm `Vec3` with f32 entries modelled as rationals. -/
structure V3 where
  x : ℚ
  y : ℚ
  z : ℚ
deriving DecidableEq, Repr

/-- nalgebra_glm `Vec4` with f32 entries modelled as rationals. -/
structure V4 where
  x : ℚ
  y : ℚ
  z : ℚ
  w : ℚ
deriving DecidableEq, Repr

def V3.add (a b : V3) : V3 := ⟨a.x + b.x, a.y + b.y, a.z + b.z⟩

def V3.sub (a b : V3) : V3 := ⟨a.x - b.x, a.y - b.y, a.z - b.z⟩

/-- Component scaling `v * k` (nalgebra `Mul<f32> for Vec3`). -/
def V3.smul (a : V3) (k : ℚ) : V3 := ⟨a.x * k, a.y * k, a.z * k⟩

instance : Add V3 := ⟨V3.add⟩

instance : Sub V3 := ⟨V3.sub⟩

instance : HMul V3 ℚ V3 := ⟨V3.smul⟩

def V3.dot (a b : V3) : ℚ := a.x * b.x + a.y * b.y + a.z * b.z

/-- nalgebra `Vec3::lerp(self, rhs, t) = self + (rhs - self) * t`. -/
def V3.lerp (a b : V3) (t : ℚ) : V3 := a + (b - a) * t

/-- Row-major 3×3 matrix (nalgebra `Mat3`), fields `m<row><col>`. -/
structure Mat3 where
  m00 : ℚ
  m01 : ℚ
  m02 : ℚ
  m10 : ℚ
  m11 : ℚ
  m12 : ℚ
  m20 : ℚ
  m21 : ℚ
  m22 : ℚ
deriving DecidableEq, Repr

def Mat3.id : Mat3 := ⟨1, 0, 0, 0, 1, 0, 0, 0, 1⟩

def Mat3.transpose (m : Mat3) : Mat3 :=
  ⟨m.m00, m.m10, m.m20, m.m01, m.m11, m.m21, m.m02, m.m12, m.m22⟩

def Mat3.det (m : Mat3) : ℚ :=
  m.m00 * (m.m11 * m.m22 - m.m12 * m.m21)
    - m.m01 * (m.m10 * m.m22 - m.m12 * m.m20)
    + m.m02 * (m.m10 * m.m21 - m.m11 * m.m20)

def Mat3.mul (a b : Mat3) : Mat3 :=
  ⟨a.m00 * b.m00 + a.m01 * b.m10 + a.m02 * b.m20,
   a.m00 * b.m01 + a.m01 * b.m11 + a.m02 * b.m21,
   a.m00 * b.m02 + a.m01 * b.m12 + a.m02 * b.m22,
   a.m10 * b.m00 + a.m11 * b.m10 + a.m12 * b.m20,
   a.m10 * b.m01 + a.m11 * b.m11 + a.m12 * b.m21,
   a.m10 * b.m02 + a.m11 * b.m12 + a.m12 * b.m22,
   a.m20 * b.m00 + a.m21 * b.m10 + a.m22 * b.m20,
   a.m20 * b.m01 + a.m21 * b.m11 + a.m22 * b.m21,
   a.m20 * b.m02 + a.m21 * b.m12 + a.m22 * b.m22⟩

instance : Mul Mat3 := ⟨Mat3.mul⟩

def Mat3.mulV3 (m : Mat3) (v : V3) : V3 :=
  ⟨m.m00 * v.x + m.m01 * v.y + m.m02 * v.z,
   m.m10 * v.x + m.m11 * v.y + m.m12 * v.z,
   m.m20 * v.x + m.m21 * v.y + m.m22 * v.z⟩

/-- Classical adjugate-over-determinant inverse of a 3×3 matrix. -/
def Mat3.inv (m : Mat3) : Mat3 :=
  let d := m.det
  ⟨(m.m11 * m.m22 - m.m12 * m.m21) / d,
   (m.m02 * m.m21 - m.m01 * m.m22) / d,
   (m.m01 * m.m12 - m.m02 * m.m11) / d,
   (m.m12 * m.m20 - m.m10 * m.m22) / d,
   (m.m00 * m.m22 - m.m02 * m.m20) / d,
   (m.m02 * m.m10 - m.m00 * m.m12) / d,
   (m.m10 * m.m21 - m.m11 * m.m20) / d,
   (m.m01 * m.m20 - m.m00 * m.m21) / d,
   (m.m00 * m.m11 - m.m01 * m.m10) / d⟩

/-- nalgebra `Mat3::try_inverse`: `none` exactly on singular matrices. -/
def Mat3.tryInverse (m : Mat3) : Option Mat3 :=
  if m.det = 0 then none else some m.inv

/-- Row-major 4×4 matrix (nalgebra `Mat4`); field order matches the
argument order of `Mat4::new` in the source. -/
structure Mat4 where
  m00 : ℚ
  m01 : ℚ
  m02 : ℚ
  m03 : ℚ
  m10 : ℚ
  m11 : ℚ
  m12 : ℚ
  m13 : ℚ
  m20 : ℚ
  m21 : ℚ
  m22 : ℚ
  m23 : ℚ
  m30 : ℚ
  m31 : ℚ
  m32 : ℚ
  m33 : ℚ
deriving DecidableEq, Repr

def Mat4.id : Mat4 := ⟨1,0,0,0, 0,1,0,0, 0,0,1,0, 0,0,0,1⟩

def Mat4.mul (a b : Mat4) : Mat4 :=
  ⟨a.m00*b.m00 + a.m01*b.m10 + a.m02*b.m20 + a.m03*b.m30,
   a.m00*b.m01 + a.m01*b.m11 + a.m02*b.m21 + a.m03*b.m31,
   a.m00*b.m02 + a.m01*b.m12 + a.m02*b.m22 + a.m03*b.m32,
   a.m00*b.m03 + a.m01*b.m13 + a.m02*b.m23 + a.m03*b.m33,
   a.m10*b.m00 + a.m11*b.m10 + a.m12*b.m20 + a.m13*b.m30,
   a.m10*b.m01 + a.m11*b.m11 + a.m12*b.m21 + a.m13*b.m31,
   a.m10*b.m02 + a.m11*b.m12 + a.m12*b.m22 + a.m13*b.m32,
   a.m10*b.m03 + a.m11*b.m13 + a.m12*b.m23 + a.m13*b.m33,
   a.m20*b.m00 + a.m21*b.m10 + a.m22*b.m20 + a.m23*b.m30,
   a.m20*b.m01 + a.m21*b.m11 + a.m22*b.m21 + a.m23*b.m31,
   a.m20*b.m02 + a.m21*b.m12 + a.m22*b.m22 + a.m23*b.m32,
   a.m20*b.m03 + a.m21*b.m13 + a.m22*b.m23 + a.m23*b.m33,
   a.m30*b.m00 + a.m31*b.m10 + a.m32*b.m20 + a.m33*b.m30,
   a.m30*b.m01 + a.m31*b.m11 + a.m32*b.m21 + a.m33*b.m31,
   a.m30*b.m02 + a.m31*b.m12 + a.m32*b.m22 + a.m33*b.m32,
   a.m30*b.m03 + a.m31*b.m13 + a.m32*b.m23 + a.m33*b.m33⟩

instance : Mul Mat4 := ⟨Mat4.mul⟩

def Mat4.mulV4 (m : Mat4) (v : V4) : V4 :=
  ⟨m.m00 * v.x + m.m01 * v.y + m.m02 * v.z + m.m03 * v.w,
   m.m10 * v.x + m.m11 * v.y + m.m12 * v.z + m.m13 * v.w,
   m.m20 * v.x + m.m21 * v.y + m.m22 * v.z + m.m23 * v.w,
   m.m30 * v.x + m.m31 * v.y + m.m32 * v.z + m.m33 * v.w⟩

instance : HMul Mat4 V4 V4 := ⟨Mat4.mulV4⟩

/-- nalgebra_glm `mat4_to_mat3`: upper-left 3×3 block. -/
def mat4_to_mat3 (m : Mat4) : Mat3 :=
  ⟨m.m00, m.m01, m.m02, m.m10, m.m11, m.m12, m.m20, m.m21, m.m22⟩

/-- Transcendental f32 operations used by the program, modelled as abstract
rational-valued functions (the program's floats are approximations of these). -/
structure MathEnv where
  sin : ℚ → ℚ
  cos : ℚ → ℚ
  normalize : V3 → V3
  powf : ℚ → ℚ → ℚ

/-- Per-vertex record (`vertex.rs` is not under src/; fields are those read
and written by `vertex_shader` and described by the spec's Vertex data model). -/
structure Vertex where
  position : V3
  normal : V3
  tex_coords : ℚ × ℚ
  color : V3
  transformed_position : V3
  transformed_normal : V3
deriving DecidableEq, Repr

/-- `Uniforms` from main.rs: the four transform matrices, the frame counter,
and the noise generator (the external `FastNoiseLite::get_noise_2d` is
modelled as an abstract function ℚ → ℚ → ℚ). -/
structure Uniforms where
  model_matrix : Mat4
  view_matrix : Mat4
  projection_matrix : Mat4
  viewport_matrix : Mat4
  time : ℕ
  noise : ℚ → ℚ → ℚ

/-- shaders.rs `vertex_shader` (lines 11–39): lift the position to
homogeneous coordinates, multiply by projection * view * model (the source's
left-associated product), divide x,y,z by w, multiply by the viewport
matrix; the normal is multiplied by the inverse of the transposed upper-left
3×3 of the model matrix, with identity as fallback on singularity. -/
def vertex_shader (vertex : Vertex) (uniforms : Uniforms) : Vertex :=
  let position : V4 := ⟨vertex.position.x, vertex.position.y, vertex.position.z, 1⟩
  let transformed :=
    (uniforms.projection_matrix * uniforms.view_matrix * uniforms.model_matrix) * position
  let w := transformed.w
  let transformed_position : V4 :=
    ⟨transformed.x / w, transformed.y / w, transformed.z / w, 1⟩
  let screen_position := uniforms.viewport_matrix * transformed_position
  let model_mat3 := mat4_to_mat3 uniforms.model_matrix
  let normal_matrix := (Mat3.tryInverse model_mat3.transpose).getD Mat3.id
  let transformed_normal := normal_matrix.mulV3 vertex.normal
  { vertex with
      transformed_position := ⟨screen_position.x, screen_position.y, screen_position.z⟩
      transformed_normal := transformed_normal }

/-- main.rs `create_viewport_matrix` (lines 97–116), row-major entries as in
the `Mat4::new` call. -/
def create_viewport_matrix (width height : ℚ) : Mat4 :=
  ⟨width / 2, 0, 0, width / 2,
   0, -height / 2, 0, height / 2,
   0, 0, 1, 0,
   0, 0, 0, 1⟩

/-- Clip-space position of a vertex under the given uniforms
(projection applied to view applied to model applied to the lifted position). -/
def clipOf (vertex : Vertex) (uniforms : Uniforms) : V4 :=
  uniforms.projection_matrix *
    (uniforms.view_matrix *
      (uniforms.model_matrix *
        (⟨vertex.position.x, vertex.position.y, vertex.position.z, 1⟩ : V4)))

/-- Modelled from the spec: the transform-stage pipeline as the spec words it
(lift to w=1, apply model then view then projection right-to-left, perspective
divide by w, then the viewport matrix). Used to compare with `vertex_shader`. -/
def vertexTransformSpec (vertex : Vertex) (uniforms : Uniforms) : V3 :=
  let clip := clipOf vertex uniforms
  let ndc : V4 := ⟨clip.x / clip.w, clip.y / clip.w, clip.z / clip.w, 1⟩
  let s := uniforms.viewport_matrix * ndc
  ⟨s.x, s.y, s.z⟩

theorem hmulM4V4_def (m : Mat4) (v : V4) : m * v = Mat4.mulV4 m v := rfl

theorem mulM4_def (a b : Mat4) : a * b = Mat4.mul a b := rfl

theorem mulM3_def (a b : Mat3) : a * b = Mat3.mul a b := rfl

/-- The matrix-vector actions of the left-associated product used by the
source and of the right-to-left application described by the spec agree. -/
theorem mulV4_assoc (P V M : Mat4) (p : V4) :
    (P * V * M) * p = P * (V * (M * p)) := by
  simp only [hmulM4V4_def, mulM4_def, Mat4.mul, Mat4.mulV4, V4.mk.injEq]
  refine ⟨by ring, by ring, by ring, by ring⟩

/-- C2: for clip-space w > 0 the screen position computed by `vertex_shader`
is exactly the spec's pipeline — homogeneous lift, projection·view·model
applied right-to-left, perspective division by w, then the viewport matrix —
and `create_viewport_matrix` maps NDC x,y ∈ [-1,1] affinely to
[0,width] × [height,0] (flipping y) while leaving z unscaled. -/
theorem vertex_shader_position_spec (v : Vertex) (u : Uniforms)
    (hw : 0 < (clipOf v u).w) :
    (vertex_shader v u).transformed_position = vertexTransformSpec v u
    ∧ (∀ W H x y z : ℚ,
        create_viewport_matrix W H * (⟨x, y, z, 1⟩ : V4) =
          ⟨(x + 1) * W / 2, (1 - y) * H / 2, z, 1⟩) := by
  constructor
  · simp only [vertex_shader, vertexTransformSpec, clipOf, mulV4_assoc]
  · intro W H x y z
    simp only [hmulM4V4_def, create_viewport_matrix, Mat4.mulV4, V4.mk.injEq]
    refine ⟨by ring, by ring, by ring, by ring⟩

/-- Witness for C2 at identity matrices and the origin vertex. -/
theorem vertex_shader_position_spec_witness :
    ((vertex_shader ⟨⟨0,0,0⟩, ⟨0,0,1⟩, (0,0), ⟨1,1,1⟩, ⟨0,0,0⟩, ⟨0,0,0⟩⟩
        ⟨Mat4.id, Mat4.id, Mat4.id, Mat4.id, 0, fun _ _ => 0⟩).transformed_position =
      vertexTransformSpec ⟨⟨0,0,0⟩, ⟨0,0,1⟩, (0,0), ⟨1,1,1⟩, ⟨0,0,0⟩, ⟨0,0,0⟩⟩
        ⟨Mat4.id, Mat4.id, Mat4.id, Mat4.id, 0, fun _ _ => 0⟩)
    ∧ (∀ W H x y z : ℚ,
        create_viewport_matrix W H * (⟨x, y, z, 1⟩ : V4) =
          ⟨(x + 1) * W / 2, (1 - y) * H / 2, z, 1⟩) :=
  vertex_shader_position_spec _ _
    (by norm_num [clipOf, Mat4.id, hmulM4V4_def, Mat4.mulV4])

/-- The normal matrix actually used by `vertex_shader`: inverse of the
transposed upper-left 3×3 of the model matrix, identity on singularity. -/
def normalMatrixOf (model : Mat4) : Mat3 :=
  (Mat3.tryInverse (mat4_to_mat3 model).transpose).getD Mat3.id

/-- C3: `vertex_shader` transforms the normal by the matrix obtained from the
upper-left 3×3 of the model matrix by transposing and inverting; when that
matrix is singular (determinant zero) the identity matrix is substituted, and
when it is invertible the substituted matrix is a genuine two-sided inverse. -/
theorem vertex_shader_normal_spec (v : Vertex) (u : Uniforms) :
    ((vertex_shader v u).transformed_normal =
        (normalMatrixOf u.model_matrix).mulV3 v.normal)
    ∧ ((mat4_to_mat3 u.model_matrix).transpose.det = 0 →
        normalMatrixOf u.model_matrix = Mat3.id)
    ∧ ((mat4_to_mat3 u.model_matrix).transpose.det ≠ 0 →
        normalMatrixOf u.model_matrix * (mat4_to_mat3 u.model_matrix).transpose = Mat3.id
        ∧ (mat4_to_mat3 u.model_matrix).transpose * normalMatrixOf u.model_matrix = Mat3.id) := by
  refine ⟨rfl, ?_, ?_⟩
  · intro h
    simp [normalMatrixOf, Mat3.tryInverse, h]
  · intro h
    set m := (mat4_to_mat3 u.model_matrix).transpose with hm
    have hinv : normalMatrixOf u.model_matrix = m.inv := by
      simp [normalMatrixOf, Mat3.tryInverse, ← hm, h]
    rw [hinv]
    have hd : m.det ≠ 0 := h
    constructor
    · simp only [mulM3_def, Mat3.inv, Mat3.mul, Mat3.id, Mat3.det, Mat3.mk.injEq] at hd ⊢
      refine ⟨?_, ?_, ?_, ?_, ?_, ?_, ?_, ?_, ?_⟩ <;> (field_simp; ring)
    · simp only [mulM3_def, Mat3.inv, Mat3.mul, Mat3.id, Mat3.det, Mat3.mk.injEq] at hd ⊢
      refine ⟨?_, ?_, ?_, ?_, ?_, ?_, ?_, ?_, ?_⟩ <;> (field_simp; ring)

theorem V3.add_def (a b : V3) : a + b = ⟨a.x + b.x, a.y + b.y, a.z + b.z⟩ := rfl

theorem V3.sub_def (a b : V3) : a - b = ⟨a.x - b.x, a.y - b.y, a.z - b.z⟩ := rfl

theorem V3.hmul_def (a : V3) (k : ℚ) : a * k = ⟨a.x * k, a.y * k, a.z * k⟩ := rfl

/-- The shader-selection tag: the variants named in main.rs's key handling
and the spec's shading-engine variant list. -/
inductive ShaderType where
  | RockyPlanet
  | RockyPlanetVariant
  | GasGiant
  | ColdGasGiant
  | Solar
  | AlienPlanet
  | GlacialTextured
  | Moon
deriving DecidableEq, Repr

/-- Per-fragment record (`fragment.rs` is not under src/; fields are those the
spec's Fragment data model lists and the shaders read: screen position,
interpolated depth, interpolated object-space position, normal, intensity). -/
structure Fragment where
  position : ℚ × ℚ
  depth : ℚ
  vertex_position : V3
  normal : V3
  intensity : ℚ
deriving DecidableEq, Repr

/-- RGB color with u8 channels (`color.rs` is not under src/). -/
structure Color where
  r : ℕ
  g : ℕ
  b : ℕ
deriving DecidableEq, Repr

/-- Modelled from the spec: `Color::to_hex` (color.rs is not under src/)
packs the three byte channels into one 0xRRGGBB machine word. -/
def Color.to_hex (c : Color) : ℕ := c.r * 65536 + c.g * 256 + c.b

/-- Band-palette index arithmetic shared by both gas-giant shaders: the f32
band index is cast with Rust's saturating `as usize` and taken mod the
palette length 5. -/
def bandIndexOf (band_index_float : ℚ) : ℕ := ratToUsize band_index_float % 5

/-- gas_giant_shader's base band colors (shaders.rs lines 47–53). -/
def gasPalette : ℕ → V3
  | 0 => ⟨110/255, 0/255, 90/255⟩
  | 1 => ⟨160/255, 20/255, 60/255⟩
  | 2 => ⟨130/255, 10/255, 80/255⟩
  | 3 => ⟨180/255, 40/255, 90/255⟩
  | _ => ⟨140/255, 10/255, 70/255⟩

/-- cold_gas_giant_shader's base band colors (shaders.rs lines 160–166). -/
def coldPalette : ℕ → V3
  | 0 => ⟨100/255, 150/255, 180/255⟩
  | 1 => ⟨120/255, 180/255, 200/255⟩
  | 2 => ⟨90/255, 140/255, 170/255⟩
  | 3 => ⟨130/255, 190/255, 210/255⟩
  | _ => ⟨80/255, 120/255, 160/255⟩

def gasStormThreshold : ℚ := 0.75

def coldStormThreshold : ℚ := 0.7

def gasStormColor : V3 := ⟨0.95, 0.85, 0.65⟩

def coldStormColor : V3 := ⟨0.75, 0.85, 0.95⟩

/-- Noise frequency of the gas-giant storm/spot sample (shaders.rs line 115). -/
def gasSpotScale : ℚ := 25

/-- Noise frequency of the cold-gas-giant storm sample (shaders.rs line 225). -/
def coldSpotScale : ℚ := 15

/-- The storm/spot overlay step shared by both gas-giant shaders
(shaders.rs lines 121–129 and 231–239): above the threshold, blend the
shaded color toward the storm color by `(spot - threshold) / range`;
otherwise leave it unchanged. -/
def stormOverlay (threshold range : ℚ) (storm_color c : V3) (spot_noise : ℚ) : V3 :=
  if spot_noise > threshold then c.lerp storm_color ((spot_noise - threshold) / range)
  else c

/-- shaders.rs `gas_giant_shader` (lines 46–157).  The two thread_rng draws
(`random_offset` from gen_range(-0.03..0.03) and `saturation_boost`, 1.2 or
1.0 by coin flip) are passed in as explicit arguments. -/
def gas_giant_shader (E : MathEnv) (fragment : Fragment) (uniforms : Uniforms)
    (random_offset saturation_boost : ℚ) : Color :=
  let time : ℚ := (uniforms.time : ℚ) * 0.001
  let dynamic_y := fragment.vertex_position.y + time
  let distortion_scale : ℚ := 10
  let distortion_value := uniforms.noise (fragment.vertex_position.x * distortion_scale)
    (dynamic_y * distortion_scale)
  let distorted_y := dynamic_y + distortion_value * 0.1 + fragment.vertex_position.x * 0.05
  let band_frequency : ℚ := 40
  let band_sine := E.sin (distorted_y * band_frequency)
  let band_variation := E.sin (fragment.vertex_position.y * 10) * 0.3
  let band_index_float := (band_sine + band_variation + 1) / 2 * 5
  let band_index := bandIndexOf band_index_float
  let base_band_color :=
    gasPalette band_index + (⟨random_offset, random_offset, random_offset⟩ : V3)
  let boosted_band_color := V3.smul base_band_color saturation_boost
  let next_band_index := (band_index + 1) % 5
  let next_band_color :=
    gasPalette next_band_index + (⟨random_offset, random_offset, random_offset⟩ : V3)
  let interpolation_factor := fract band_index_float
  let interpolated_color := boosted_band_color.lerp next_band_color interpolation_factor
  let noise_scale_1 : ℚ := 80
  let noise_value_1 := uniforms.noise (fragment.vertex_position.x * noise_scale_1)
    (fragment.vertex_position.y * noise_scale_1)
  let noise_scale_2 : ℚ := 40
  let noise_value_2 := uniforms.noise (fragment.vertex_position.x * noise_scale_2)
    (fragment.vertex_position.y * noise_scale_2)
  let perturbed_color :=
    V3.smul interpolated_color ((0.95 : ℚ) + (noise_value_1 + noise_value_2) * 0.015)
  let internal_shadow := |E.sin (distorted_y * band_frequency * 0.1)| * 0.15
  let shaded_color := V3.smul perturbed_color (1 - internal_shadow)
  let shadow_noise_scale : ℚ := 50
  let shadow_noise := uniforms.noise (fragment.vertex_position.x * shadow_noise_scale)
    (fragment.vertex_position.y * shadow_noise_scale)
  let shadow_variation := 1 - shadow_noise * 0.05
  let final_shaded_color := V3.smul shaded_color shadow_variation
  let spot_noise := uniforms.noise (fragment.vertex_position.x * gasSpotScale)
    (fragment.vertex_position.y * gasSpotScale)
  let final_color :=
    stormOverlay gasStormThreshold 0.25 gasStormColor final_shaded_color spot_noise
  let normal := E.normalize fragment.vertex_position
  let light_dir := E.normalize ⟨0.6, 0.8, 0.4⟩
  let lambertian := max (light_dir.dot normal) 0
  let shading_factor := 0.75 + 0.25 * lambertian
  let final_color := V3.smul final_color shading_factor
  let gradient_shading := 1 - |fragment.vertex_position.y| * 0.15
  let final_color := V3.smul final_color gradient_shading
  let view_dir := E.normalize ⟨0, 0, 1⟩
  let reflect_dir := E.normalize (V3.smul normal (2 * normal.dot light_dir) - light_dir)
  let specular_intensity := E.powf (max (view_dir.dot reflect_dir) 0) 10
  let final_color :=
    final_color + V3.smul (V3.smul (⟨1, 1, 1⟩ : V3) specular_intensity) (0.15 : ℚ)
  let final_color := V3.smul final_color fragment.intensity
  Color.mk (ratToU8 (final_color.x * 255)) (ratToU8 (final_color.y * 255))
    (ratToU8 (final_color.z * 255))

/-- shaders.rs `cold_gas_giant_shader` (lines 159–263), with the rng draws
passed in as explicit arguments as in `gas_giant_shader`. -/
def cold_gas_giant_shader (E : MathEnv) (fragment : Fragment) (uniforms : Uniforms)
    (random_offset saturation_boost : ℚ) : Color :=
  let time : ℚ := (uniforms.time : ℚ) * 0.001
  let dynamic_y := fragment.vertex_position.y + time
  let distortion_scale : ℚ := 10
  let distortion_value := uniforms.noise (fragment.vertex_position.x * distortion_scale)
    (dynamic_y * distortion_scale)
  let wind_tilt := fragment.vertex_position.x * 0.02
  let distorted_y :=
    dynamic_y + wind_tilt + distortion_value * 0.1 + fragment.vertex_position.x * 0.05
  let band_frequency : ℚ := 40
  let band_sine := E.sin (distorted_y * band_frequency)
  let band_variation := E.sin (fragment.vertex_position.y * 10) * 0.3
  let band_index_float := (band_sine + band_variation + 1) / 2 * 5
  let band_index := bandIndexOf band_index_float
  let base_band_color :=
    coldPalette band_index + (⟨random_offset, random_offset, random_offset⟩ : V3)
  let boosted_band_color := V3.smul base_band_color saturation_boost
  let next_band_index := (band_index + 1) % 5
  let next_band_color :=
    coldPalette next_band_index + (⟨random_offset, random_offset, random_offset⟩ : V3)
  let interpolation_factor := fract band_index_float
  let interpolated_color := boosted_band_color.lerp next_band_color interpolation_factor
  let noise_scale_1 : ℚ := 80
  let noise_value_1 := uniforms.noise (fragment.vertex_position.x * noise_scale_1)
    (fragment.vertex_position.y * noise_scale_1)
  let noise_scale_2 : ℚ := 40
  let noise_value_2 := uniforms.noise (fragment.vertex_position.x * noise_scale_2)
    (fragment.vertex_position.y * noise_scale_2)
  let perturbed_color :=
    V3.smul interpolated_color ((0.95 : ℚ) + (noise_value_1 + noise_value_2) * 0.015)
  let internal_shadow := |E.sin (distorted_y * band_frequency * 0.1)| * 0.15
  let shaded_color := V3.smul perturbed_color (1 - internal_shadow)
  let shadow_noise_scale : ℚ := 50
  let shadow_noise := uniforms.noise (fragment.vertex_position.x * shadow_noise_scale)
    (fragment.vertex_position.y * shadow_noise_scale)
  let shadow_variation := 1 - shadow_noise * 0.05
  let final_shaded_color := V3.smul shaded_color shadow_variation
  let spot_noise := uniforms.noise (fragment.vertex_position.x * coldSpotScale)
    (fragment.vertex_position.y * coldSpotScale)
  let final_color :=
    stormOverlay coldStormThreshold 0.3 coldStormColor final_shaded_color spot_noise
  let normal := E.normalize fragment.vertex_position
  let light_dir := E.normalize ⟨0.6, 0.8, 0.4⟩
  let lambertian := max (light_dir.dot normal) 0
  let shading_factor := 0.75 + 0.25 * lambertian
  let final_color := V3.smul final_color shading_factor
  let gradient_shading := 1 - |fragment.vertex_position.y| * 0.15
  let final_color := V3.smul final_color gradient_shading
  let view_dir := E.normalize ⟨0, 0, 1⟩
  let reflect_dir := E.normalize (V3.smul normal (2 * normal.dot light_dir) - light_dir)
  let specular_intensity := E.powf (max (view_dir.dot reflect_dir) 0) 10
  let final_color :=
    final_color + V3.smul (V3.smul (⟨1, 1, 1⟩ : V3) specular_intensity) (0.15 : ℚ)
  let final_color := V3.smul final_color fragment.intensity
  Color.mk (ratToU8 (final_color.x * 255)) (ratToU8 (final_color.y * 255))
    (ratToU8 (final_color.z * 255))

/-- shaders.rs `fragment_shader` (lines 41–44): it takes no shader-selection
argument and unconditionally calls `cold_gas_giant_shader` (the
`gas_giant_shader` call on line 42 is commented out). -/
def fragment_shader (E : MathEnv) (fragment : Fragment) (uniforms : Uniforms)
    (random_offset saturation_boost : ℚ) : Color :=
  cold_gas_giant_shader E fragment uniforms random_offset saturation_boost

/-- Modelled from the spec: `gas_giant_shader` with the per-pixel random
jitter disabled — no random offset added to the band colors and no
saturation boost — as in the spec's determinism property. -/
def gas_giant_shader_pure (E : MathEnv) (fragment : Fragment) (uniforms : Uniforms) : Color :=
  let time : ℚ := (uniforms.time : ℚ) * 0.001
  let dynamic_y := fragment.vertex_position.y + time
  let distortion_scale : ℚ := 10
  let distortion_value := uniforms.noise (fragment.vertex_position.x * distortion_scale)
    (dynamic_y * distortion_scale)
  let distorted_y := dynamic_y + distortion_value * 0.1 + fragment.vertex_position.x * 0.05
  let band_frequency : ℚ := 40
  let band_sine := E.sin (distorted_y * band_frequency)
  let band_variation := E.sin (fragment.vertex_position.y * 10) * 0.3
  let band_index_float := (band_sine + band_variation + 1) / 2 * 5
  let band_index := bandIndexOf band_index_float
  let base_band_color := gasPalette band_index
  let next_band_index := (band_index + 1) % 5
  let next_band_color := gasPalette next_band_index
  let interpolation_factor := fract band_index_float
  let interpolated_color := base_band_color.lerp next_band_color interpolation_factor
  let noise_scale_1 : ℚ := 80
  let noise_value_1 := uniforms.noise (fragment.vertex_position.x * noise_scale_1)
    (fragment.vertex_position.y * noise_scale_1)
  let noise_scale_2 : ℚ := 40
  let noise_value_2 := uniforms.noise (fragment.vertex_position.x * noise_scale_2)
    (fragment.vertex_position.y * noise_scale_2)
  let perturbed_color :=
    V3.smul interpolated_color ((0.95 : ℚ) + (noise_value_1 + noise_value_2) * 0.015)
  let internal_shadow := |E.sin (distorted_y * band_frequency * 0.1)| * 0.15
  let shaded_color := V3.smul perturbed_color (1 - internal_shadow)
  let shadow_noise_scale : ℚ := 50
  let shadow_noise := uniforms.noise (fragment.vertex_position.x * shadow_noise_scale)
    (fragment.vertex_position.y * shadow_noise_scale)
  let shadow_variation := 1 - shadow_noise * 0.05
  let final_shaded_color := V3.smul shaded_color shadow_variation
  let spot_noise := uniforms.noise (fragment.vertex_position.x * gasSpotScale)
    (fragment.vertex_position.y * gasSpotScale)
  let final_color :=
    stormOverlay gasStormThreshold 0.25 gasStormColor final_shaded_color spot_noise
  let normal := E.normalize fragment.vertex_position
  let light_dir := E.normalize ⟨0.6, 0.8, 0.4⟩
  let lambertian := max (light_dir.dot normal) 0
  let shading_factor := 0.75 + 0.25 * lambertian
  let final_color := V3.smul final_color shading_factor
  let gradient_shading := 1 - |fragment.vertex_position.y| * 0.15
  let final_color := V3.smul final_color gradient_shading
  let view_dir := E.normalize ⟨0, 0, 1⟩
  let reflect_dir := E.normalize (V3.smul normal (2 * normal.dot light_dir) - light_dir)
  let specular_intensity := E.powf (max (view_dir.dot reflect_dir) 0) 10
  let final_color :=
    final_color + V3.smul (V3.smul (⟨1, 1, 1⟩ : V3) specular_intensity) (0.15 : ℚ)
  let final_color := V3.smul final_color fragment.intensity
  Color.mk (ratToU8 (final_color.x * 255)) (ratToU8 (final_color.y * 255))
    (ratToU8 (final_color.z * 255))

/-- Modelled from the spec: `cold_gas_giant_shader` with the per-pixel random
jitter disabled, as in the spec's determinism property. -/
def cold_gas_giant_shader_pure (E : MathEnv) (fragment : Fragment) (uniforms : Uniforms) :
    Color :=
  let time : ℚ := (uniforms.time : ℚ) * 0.001
  let dynamic_y := fragment.vertex_position.y + time
  let distortion_scale : ℚ := 10
  let distortion_value := uniforms.noise (fragment.vertex_position.x * distortion_scale)
    (dynamic_y * distortion_scale)
  let wind_tilt := fragment.vertex_position.x * 0.02
  let distorted_y :=
    dynamic_y + wind_tilt + distortion_value * 0.1 + fragment.vertex_position.x * 0.05
  let band_frequency : ℚ := 40
  let band_sine := E.sin (distorted_y * band_frequency)
  let band_variation := E.sin (fragment.vertex_position.y * 10) * 0.3
  let band_index_float := (band_sine + band_variation + 1) / 2 * 5
  let band_index := bandIndexOf band_index_float
  let base_band_color := coldPalette band_index
  let next_band_index := (band_index + 1) % 5
  let next_band_color := coldPalette next_band_index
  let interpolation_factor := fract band_index_float
  let interpolated_color := base_band_color.lerp next_band_color interpolation_factor
  let noise_scale_1 : ℚ := 80
  let noise_value_1 := uniforms.noise (fragment.vertex_position.x * noise_scale_1)
    (fragment.vertex_position.y * noise_scale_1)
  let noise_scale_2 : ℚ := 40
  let noise_value_2 := uniforms.noise (fragment.vertex_position.x * noise_scale_2)
    (fragment.vertex_position.y * noise_scale_2)
  let perturbed_color :=
    V3.smul interpolated_color ((0.95 : ℚ) + (noise_value_1 + noise_value_2) * 0.015)
  let internal_shadow := |E.sin (distorted_y * band_frequency * 0.1)| * 0.15
  let shaded_color := V3.smul perturbed_color (1 - internal_shadow)
  let shadow_noise_scale : ℚ := 50
  let shadow_noise := uniforms.noise (fragment.vertex_position.x * shadow_noise_scale)
    (fragment.vertex_position.y * shadow_noise_scale)
  let shadow_variation := 1 - shadow_noise * 0.05
  let final_shaded_color := V3.smul shaded_color shadow_variation
  let spot_noise := uniforms.noise (fragment.vertex_position.x * coldSpotScale)
    (fragment.vertex_position.y * coldSpotScale)
  let final_color :=
    stormOverlay coldStormThreshold 0.3 coldStormColor final_shaded_color spot_noise
  let normal := E.normalize fragment.vertex_position
  let light_dir := E.normalize ⟨0.6, 0.8, 0.4⟩
  let lambertian := max (light_dir.dot normal) 0
  let shading_factor := 0.75 + 0.25 * lambertian
  let final_color := V3.smul final_color shading_factor
  let gradient_shading := 1 - |fragment.vertex_position.y| * 0.15
  let final_color := V3.smul final_color gradient_shading
  let view_dir := E.normalize ⟨0, 0, 1⟩
  let reflect_dir := E.normalize (V3.smul normal (2 * normal.dot light_dir) - light_dir)
  let specular_intensity := E.powf (max (view_dir.dot reflect_dir) 0) 10
  let final_color :=
    final_color + V3.smul (V3.smul (⟨1, 1, 1⟩ : V3) specular_intensity) (0.15 : ℚ)
  let final_color := V3.smul final_color fragment.intensity
  Color.mk (ratToU8 (final_color.x * 255)) (ratToU8 (final_color.y * 255))
    (ratToU8 (final_color.z * 255))

theorem V3.add_zero_triple (v : V3) : v + (⟨0, 0, 0⟩ : V3) = v := by
  show V3.add v ⟨0, 0, 0⟩ = v
  simp [V3.add]

theorem V3.smul_one_right (v : V3) : V3.smul v 1 = v := by
  simp [V3.smul]

theorem V3.lerp_zero (a b : V3) : a.lerp b 0 = a := by
  obtain ⟨a1, a2, a3⟩ := a
  obtain ⟨b1, b2, b3⟩ := b
  simp only [V3.lerp, V3.add_def, V3.sub_def, V3.hmul_def, V3.mk.injEq]
  refine ⟨by ring, by ring, by ring⟩

theorem V3.lerp_one (a b : V3) : a.lerp b 1 = b := by
  obtain ⟨a1, a2, a3⟩ := a
  obtain ⟨b1, b2, b3⟩ := b
  simp only [V3.lerp, V3.add_def, V3.sub_def, V3.hmul_def, V3.mk.injEq]
  refine ⟨by ring, by ring, by ring⟩

/-- C1: contrary to the claimed per-variant dispatch, `fragment_shader` in
shaders.rs takes no shader-selection input at all and returns the
cold-gas-giant coloring for every fragment, whatever variant was selected
externally (the gas-giant call is commented out in the source). -/
theorem fragment_shader_ignores_selection (E : MathEnv) (f : Fragment) (u : Uniforms)
    (random_offset saturation_boost : ℚ) :
    fragment_shader E f u random_offset saturation_boost =
      cold_gas_giant_shader E f u random_offset saturation_boost := rfl

/-- C7: the storm/spot overlay of the two gas-giant shaders samples noise at
its own dedicated frequency (25 for GasGiant, 15 for ColdGasGiant); at or
below the variant threshold (0.75 resp. 0.7) the color is unchanged, above
it the color is blended toward the variant's storm color with mix factor
`(spot - threshold) / range`, which is 0 at the threshold and exactly 1 at
spot = 1. -/
theorem storm_overlay_spec (c : V3) (s : ℚ) :
    (gasSpotScale = 25 ∧ coldSpotScale = 15)
    ∧ (s ≤ gasStormThreshold → stormOverlay gasStormThreshold 0.25 gasStormColor c s = c)
    ∧ (gasStormThreshold < s →
        stormOverlay gasStormThreshold 0.25 gasStormColor c s =
          c.lerp gasStormColor ((s - gasStormThreshold) / 0.25))
    ∧ c.lerp gasStormColor ((gasStormThreshold - gasStormThreshold) / 0.25) = c
    ∧ stormOverlay gasStormThreshold 0.25 gasStormColor c 1 = gasStormColor
    ∧ (s ≤ coldStormThreshold → stormOverlay coldStormThreshold 0.3 coldStormColor c s = c)
    ∧ (coldStormThreshold < s →
        stormOverlay coldStormThreshold 0.3 coldStormColor c s =
          c.lerp coldStormColor ((s - coldStormThreshold) / 0.3))
    ∧ c.lerp coldStormColor ((coldStormThreshold - coldStormThreshold) / 0.3) = c
    ∧ stormOverlay coldStormThreshold 0.3 coldStormColor c 1 = coldStormColor := by
  refine ⟨⟨rfl, rfl⟩, ?_, ?_, ?_, ?_, ?_, ?_, ?_, ?_⟩
  · intro h
    simp only [stormOverlay, gt_iff_lt, if_neg (not_lt.mpr h)]
  · intro h
    simp only [stormOverlay, gt_iff_lt, if_pos h]
  · rw [sub_self, zero_div, V3.lerp_zero]
  · have h1 : gasStormThreshold < (1 : ℚ) := by norm_num [gasStormThreshold]
    have h2 : ((1 : ℚ) - gasStormThreshold) / 0.25 = 1 := by norm_num [gasStormThreshold]
    simp only [stormOverlay, gt_iff_lt, if_pos h1, h2, V3.lerp_one]
  · intro h
    simp only [stormOverlay, gt_iff_lt, if_neg (not_lt.mpr h)]
  · intro h
    simp only [stormOverlay, gt_iff_lt, if_pos h]
  · rw [sub_self, zero_div, V3.lerp_zero]
  · have h1 : coldStormThreshold < (1 : ℚ) := by norm_num [coldStormThreshold]
    have h2 : ((1 : ℚ) - coldStormThreshold) / 0.3 = 1 := by norm_num [coldStormThreshold]
    simp only [stormOverlay, gt_iff_lt, if_pos h1, h2, V3.lerp_one]

/-- Witness for C7: a sample at 1/2 is below the gas threshold and leaves the
color unchanged; a cold sample at 4/5 exceeds 0.7 and blends. -/
theorem storm_overlay_spec_witness :
    stormOverlay gasStormThreshold 0.25 gasStormColor (⟨0, 0, 0⟩ : V3) (1/2) = ⟨0, 0, 0⟩
    ∧ stormOverlay coldStormThreshold 0.3 coldStormColor (⟨0, 0, 0⟩ : V3) (4/5) =
        V3.lerp ⟨0, 0, 0⟩ coldStormColor ((4/5 - coldStormThreshold) / 0.3) :=
  ⟨(storm_overlay_spec ⟨0, 0, 0⟩ (1/2)).2.1 (by norm_num [gasStormThreshold]),
   (storm_overlay_spec ⟨0, 0, 0⟩ (4/5)).2.2.2.2.2.2.1 (by norm_num [coldStormThreshold])⟩

/-- C8: with the per-pixel random jitter disabled (random offset 0, no
saturation boost), both gas-giant shaders coincide with the jitter-free
shader, a pure function of the fragment, the uniforms (noise seed and time
included) and the float operations: the output is repeatable. -/
theorem shader_without_jitter_deterministic (E : MathEnv) (f : Fragment) (u : Uniforms) :
    gas_giant_shader E f u 0 1 = gas_giant_shader_pure E f u
    ∧ cold_gas_giant_shader E f u 0 1 = cold_gas_giant_shader_pure E f u := by
  constructor
  · simp only [gas_giant_shader, gas_giant_shader_pure, V3.add_zero_triple,
      V3.smul_one_right]
  · simp only [cold_gas_giant_shader, cold_gas_giant_shader_pure, V3.add_zero_triple,
      V3.smul_one_right]

/-- C9: the palette index used by both gas-giant shaders is always in
bounds: the saturating cast sends negative band indices to 0, and both
`band_index` and `next_band_index` are reduced mod the palette length 5,
so they are strictly below 5 and the palette accesses cannot panic. -/
theorem band_index_in_bounds (band_index_float : ℚ) :
    bandIndexOf band_index_float < 5
    ∧ (bandIndexOf band_index_float + 1) % 5 < 5
    ∧ (band_index_float < 0 → ratToUsize band_index_float = 0) := by
  refine ⟨?_, ?_, ?_⟩
  · simp only [bandIndexOf]
    exact Nat.mod_lt _ (by norm_num)
  · exact Nat.mod_lt _ (by norm_num)
  · intro h
    simp [ratToUsize, le_of_lt h]

/-- Witness for C9 at the most negative reachable band index value, -3/4. -/
theorem band_index_in_bounds_witness :
    bandIndexOf (-3/4) < 5 ∧ ratToUsize ((-3 : ℚ)/4) = 0 :=
  ⟨(band_index_in_bounds (-3/4)).1, (band_index_in_bounds (-3/4)).2.2 (by norm_num)⟩

/-- Modelled from the spec: the framebuffer (framebuffer.rs is not under
src/): a width×height grid of color cells and a parallel grid of depth
cells (cleared to +infinity, modelled as ⊤ in `WithTop ℚ`), plus the
background color and the current drawing color. -/
structure Framebuffer where
  width : ℕ
  height : ℕ
  buffer : ℕ → ℕ → ℕ
  zbuffer : ℕ → ℕ → WithTop ℚ
  background_color : ℕ
  current_color : ℕ

def Framebuffer.set_current_color (fb : Framebuffer) (color : ℕ) : Framebuffer :=
  { fb with current_color := color }

/-- Modelled from the spec: `point(x,y,depth)` is bounds-checked and writes
both the current color and the depth iff `depth < stored_depth[x,y]`
(strict, nearer wins); otherwise it is a no-op. -/
def Framebuffer.point (fb : Framebuffer) (x y : ℕ) (depth : ℚ) : Framebuffer :=
  if x < fb.width ∧ y < fb.height then
    if (depth : WithTop ℚ) < fb.zbuffer x y then
      { fb with
          buffer := fun a b => if a = x ∧ b = y then fb.current_color else fb.buffer a b
          zbuffer := fun a b => if a = x ∧ b = y then (depth : WithTop ℚ) else fb.zbuffer a b }
    else fb
  else fb

/-- Modelled from the spec: `clear()` resets every color cell to the
background color and every depth cell to the infinitely-far sentinel. -/
def Framebuffer.clear (fb : Framebuffer) : Framebuffer :=
  { fb with buffer := fun _ _ => fb.background_color, zbuffer := fun _ _ => ⊤ }

/-- One fragment-stage write of a frame: target pixel, color and depth
(render sets the current color and then calls `point`, main.rs lines 155–158). -/
structure Write where
  x : ℕ
  y : ℕ
  color : ℕ
  depth : ℚ
deriving DecidableEq, Repr

/-- A frame's sequence of fragment writes applied in order. -/
def applyWrites (fb : Framebuffer) : List Write → Framebuffer
  | [] => fb
  | w :: ws => applyWrites ((fb.set_current_color w.color).point w.x w.y w.depth) ws

/-- Minimum depth among the writes hitting pixel (x, y) (⊤ when none). -/
def depthsAt (x y : ℕ) : List Write → WithTop ℚ
  | [] => ⊤
  | w :: ws =>
      if w.x = x ∧ w.y = y then min (w.depth : WithTop ℚ) (depthsAt x y ws)
      else depthsAt x y ws

/-- Modelled from the spec: the color a cell holds — starting from color c0
under stored depth d0, each write at this pixel whose depth strictly passes
the running depth becomes the cell color and the new stored depth. -/
def cellColorSpec (c0 : ℕ) (d0 : WithTop ℚ) (x y : ℕ) : List Write → ℕ
  | [] => c0
  | w :: ws =>
      if w.x = x ∧ w.y = y ∧ (w.depth : WithTop ℚ) < d0 then
        cellColorSpec w.color (w.depth : WithTop ℚ) x y ws
      else cellColorSpec c0 d0 x y ws

theorem point_width (fb : Framebuffer) (x y : ℕ) (d : ℚ) :
    (fb.point x y d).width = fb.width := by
  simp only [Framebuffer.point]
  split_ifs <;> rfl

theorem point_height (fb : Framebuffer) (x y : ℕ) (d : ℚ) :
    (fb.point x y d).height = fb.height := by
  simp only [Framebuffer.point]
  split_ifs <;> rfl

theorem step_zbuffer (fb : Framebuffer) (w : Write) (x y : ℕ)
    (hx : x < fb.width) (hy : y < fb.height) :
    ((fb.set_current_color w.color).point w.x w.y w.depth).zbuffer x y =
      if w.x = x ∧ w.y = y ∧ (w.depth : WithTop ℚ) < fb.zbuffer x y
      then (w.depth : WithTop ℚ) else fb.zbuffer x y := by
  by_cases hxy : w.x = x ∧ w.y = y
  · obtain ⟨e1, e2⟩ := hxy
    subst e1
    subst e2
    simp only [Framebuffer.point, Framebuffer.set_current_color, if_pos (And.intro hx hy)]
    by_cases hd : (w.depth : WithTop ℚ) < fb.zbuffer w.x w.y
    · simp [hd]
    · simp [hd]
  · have hxy' : ¬ (x = w.x ∧ y = w.y) := fun h => hxy ⟨h.1.symm, h.2.symm⟩
    simp only [Framebuffer.point, Framebuffer.set_current_color]
    split_ifs <;> simp_all

theorem step_buffer (fb : Framebuffer) (w : Write) (x y : ℕ)
    (hx : x < fb.width) (hy : y < fb.height) :
    ((fb.set_current_color w.color).point w.x w.y w.depth).buffer x y =
      if w.x = x ∧ w.y = y ∧ (w.depth : WithTop ℚ) < fb.zbuffer x y
      then w.color else fb.buffer x y := by
  by_cases hxy : w.x = x ∧ w.y = y
  · obtain ⟨e1, e2⟩ := hxy
    subst e1
    subst e2
    simp only [Framebuffer.point, Framebuffer.set_current_color, if_pos (And.intro hx hy)]
    by_cases hd : (w.depth : WithTop ℚ) < fb.zbuffer w.x w.y
    · simp [hd]
    · simp [hd]
  · have hxy' : ¬ (x = w.x ∧ y = w.y) := fun h => hxy ⟨h.1.symm, h.2.symm⟩
    simp only [Framebuffer.point, Framebuffer.set_current_color]
    split_ifs <;> simp_all

/-- C4: for every pixel within bounds and every sequence of writes of a
frame, the depth cell ends as the minimum of its starting depth and all
depths written at that pixel, and the color cell ends as the color of the
most recent write that passed the strict depth test. -/
theorem framebuffer_depth_color_invariant (fb : Framebuffer) (ws : List Write) (x y : ℕ)
    (hx : x < fb.width) (hy : y < fb.height) :
    (applyWrites fb ws).zbuffer x y = min (fb.zbuffer x y) (depthsAt x y ws)
    ∧ (applyWrites fb ws).buffer x y =
        cellColorSpec (fb.buffer x y) (fb.zbuffer x y) x y ws := by
  induction ws generalizing fb with
  | nil => simp [applyWrites, depthsAt, cellColorSpec, min_eq_left le_top]
  | cons w ws ih =>
    have hx' : x < ((fb.set_current_color w.color).point w.x w.y w.depth).width := by
      rw [point_width]; exact hx
    have hy' : y < ((fb.set_current_color w.color).point w.x w.y w.depth).height := by
      rw [point_height]; exact hy
    have ih' := ih _ hx' hy'
    rw [step_zbuffer fb w x y hx hy, step_buffer fb w x y hx hy] at ih'
    have happ : applyWrites fb (w :: ws) =
        applyWrites ((fb.set_current_color w.color).point w.x w.y w.depth) ws := rfl
    rw [happ]
    constructor
    · rw [ih'.1, depthsAt]
      by_cases hxy : w.x = x ∧ w.y = y
      · rw [if_pos hxy]
        by_cases hd : (w.depth : WithTop ℚ) < fb.zbuffer x y
        · rw [if_pos ⟨hxy.1, hxy.2, hd⟩, eq_comm, min_eq_right]
          exact le_trans (min_le_left _ _) hd.le
        · rw [if_neg (fun h => hd h.2.2), ← min_assoc, min_eq_left (not_lt.mp hd)]
      · rw [if_neg (fun h => hxy ⟨h.1, h.2.1⟩), if_neg hxy]
    · rw [ih'.2, cellColorSpec]
      by_cases h : w.x = x ∧ w.y = y ∧ (w.depth : WithTop ℚ) < fb.zbuffer x y
      · rw [if_pos h, if_pos h, if_pos h]
      · rw [if_neg h, if_neg h, if_neg h]

/-- Example frame for C4's witness: a 1×1 framebuffer and the spec's test
sequence — color 1 at depth 5, then color 2 at depth 3, then color 3 at
depth 7. -/
def fbEx : Framebuffer :=
  ⟨1, 1, fun _ _ => 0, fun _ _ => ⊤, 0, 0⟩

def wsEx : List Write := [⟨0, 0, 1, 5⟩, ⟨0, 0, 2, 3⟩, ⟨0, 0, 3, 7⟩]

/-- Witness for C4: on the spec's depth-test example the pixel ends with
color 2 at depth 3, as the invariant dictates. -/
theorem framebuffer_depth_color_invariant_witness :
    ((applyWrites fbEx wsEx).zbuffer 0 0 = min (fbEx.zbuffer 0 0) (depthsAt 0 0 wsEx)
     ∧ (applyWrites fbEx wsEx).buffer 0 0 =
         cellColorSpec (fbEx.buffer 0 0) (fbEx.zbuffer 0 0) 0 0 wsEx)
    ∧ (applyWrites fbEx wsEx).zbuffer 0 0 = ((3 : ℚ) : WithTop ℚ)
    ∧ (applyWrites fbEx wsEx).buffer 0 0 = 2 := by
  refine ⟨framebuffer_depth_color_invariant fbEx wsEx 0 0 (by norm_num [fbEx])
      (by norm_num [fbEx]), ?_, ?_⟩
  · decide
  · decide

/-- main.rs render, fragment processing (lines 150–160): cast the fragment's
f32 screen coordinates with `as usize`, test the cast coordinates against
the framebuffer bounds, and only then shade the fragment and write it. -/
def processFragment (E : MathEnv) (fb : Framebuffer) (uniforms : Uniforms)
    (fragment : Fragment) (random_offset saturation_boost : ℚ) : Framebuffer :=
  let x := ratToUsize fragment.position.1
  let y := ratToUsize fragment.position.2
  if x < fb.width ∧ y < fb.height then
    let shaded_color := fragment_shader E fragment uniforms random_offset saturation_boost
    let color := shaded_color.to_hex
    (fb.set_current_color color).point x y fragment.depth
  else fb

def mZero4 : Mat4 := ⟨0, 0, 0, 0, 0, 0, 0, 0, 0, 0, 0, 0, 0, 0, 0, 0⟩

def vEx : Vertex := ⟨⟨0, 0, 0⟩, ⟨0, 0, 1⟩, (0, 0), ⟨1, 1, 1⟩, ⟨0, 0, 0⟩, ⟨0, 0, 0⟩⟩

def uIdEx : Uniforms := ⟨Mat4.id, Mat4.id, Mat4.id, Mat4.id, 0, fun _ _ => 0⟩

def uZeroEx : Uniforms := ⟨mZero4, Mat4.id, Mat4.id, Mat4.id, 0, fun _ _ => 0⟩

/-- Witness for C3: the all-zero (singular) model matrix falls back to the
identity normal matrix; the identity model matrix yields a two-sided inverse. -/
theorem vertex_shader_normal_spec_witness :
    normalMatrixOf mZero4 = Mat3.id
    ∧ (normalMatrixOf Mat4.id * (mat4_to_mat3 Mat4.id).transpose = Mat3.id
       ∧ (mat4_to_mat3 Mat4.id).transpose * normalMatrixOf Mat4.id = Mat3.id) :=
  ⟨(vertex_shader_normal_spec vEx uZeroEx).2.1
      (by norm_num [mat4_to_mat3, Mat3.transpose, Mat3.det, mZero4, uZeroEx]),
   (vertex_shader_normal_spec vEx uIdEx).2.2
      (by norm_num [mat4_to_mat3, Mat3.transpose, Mat3.det, Mat4.id, uIdEx])⟩

def envEx : MathEnv := ⟨fun _ => 0, fun _ => 0, fun v => v, fun _ _ => 0⟩

/-- The six-hundred-by-eight-hundred framebuffer of main.rs after `clear()`. -/
def fb800 : Framebuffer :=
  ⟨800, 600, fun _ _ => 0x333355, fun _ _ => ⊤, 0x333355, 0xFFDDDD⟩

/-- A rasterizer fragment with a negative screen x coordinate. -/
def fragNegEx : Fragment := ⟨(-5, 0), 1, ⟨0, 0, 0⟩, ⟨0, 0, 1⟩, 1⟩

/-- An out-of-bounds fragment (cast x = 900 ≥ width). -/
def fragOutEx : Fragment := ⟨(900, 0), 1, ⟨0, 0, 0⟩, ⟨0, 0, 1⟩, 1⟩

/-- C5 counterexample: a fragment with negative screen x is NOT discarded —
Rust's `as usize` saturates the negative coordinate to 0, which passes the
bounds test, so the fragment is shaded and written: the depth cell at pixel
(0,0) changes from the cleared ⊤ to the fragment's depth 1. -/
theorem process_fragment_negative_written :
    fragNegEx.position.1 < 0
    ∧ fb800.zbuffer 0 0 = ⊤
    ∧ (processFragment envEx fb800 uIdEx fragNegEx 0 1).zbuffer 0 0 = ((1 : ℚ) : WithTop ℚ) := by
  refine ⟨by norm_num [fragNegEx], rfl, ?_⟩
  decide

/-- C5 (amended): the render loop drops a fragment iff its coordinates,
after the saturating `as usize` cast, lie outside the framebuffer; when the
cast coordinates are in bounds the fragment is shaded and written through
`point`; negative coordinates saturate to 0 (hence are written, not dropped). -/
theorem process_fragment_bounds (E : MathEnv) (fb : Framebuffer) (u : Uniforms)
    (frag : Fragment) (r s : ℚ) :
    (¬(ratToUsize frag.position.1 < fb.width ∧ ratToUsize frag.position.2 < fb.height) →
        processFragment E fb u frag r s = fb)
    ∧ ((ratToUsize frag.position.1 < fb.width ∧ ratToUsize frag.position.2 < fb.height) →
        processFragment E fb u frag r s =
          (fb.set_current_color (fragment_shader E frag u r s).to_hex).point
            (ratToUsize frag.position.1) (ratToUsize frag.position.2) frag.depth)
    ∧ (frag.position.1 < 0 → ratToUsize frag.position.1 = 0) := by
  refine ⟨?_, ?_, ?_⟩
  · intro h
    simp only [processFragment, if_neg h]
  · intro h
    simp only [processFragment, if_pos h]
  · intro h
    simp [ratToUsize, le_of_lt h]

/-- Witness for C5's amended statement: the fragment with cast x = 900 ≥ 800
leaves the framebuffer untouched, and a negative x casts to 0. -/
theorem process_fragment_bounds_witness :
    processFragment envEx fb800 uIdEx fragOutEx 0 1 = fb800
    ∧ ratToUsize fragNegEx.position.1 = 0 :=
  ⟨(process_fragment_bounds envEx fb800 uIdEx fragOutEx 0 1).1
      (by norm_num [fragOutEx, fb800, ratToUsize]),
   (process_fragment_bounds envEx fb800 uIdEx fragNegEx 0 1).2.2
      (by norm_num [fragNegEx])⟩

/-- main.rs render, primitive assembly (lines 131–141): walk the transformed
vertex list with stride 3 and push a triangle for each index i with
i + 2 < len; the list form consumes three vertices per triangle and drops a
trailing group of fewer than three. -/
def assembleTriangles : List Vertex → List (Vertex × Vertex × Vertex)
  | a :: b :: c :: rest => (a, b, c) :: assembleTriangles rest
  | _ => []

theorem assemble_length : ∀ vs : List Vertex,
    (assembleTriangles vs).length = vs.length / 3
  | [] => rfl
  | [v] => by
      rw [show assembleTriangles [v] = [] from rfl]
      simp only [List.length_cons, List.length_nil]
  | [v, v2] => by
      rw [show assembleTriangles [v, v2] = [] from rfl]
      simp only [List.length_cons, List.length_nil]
  | a :: b :: c :: rest => by
      have ih := assemble_length rest
      rw [show assembleTriangles (a :: b :: c :: rest) = (a, b, c) :: assembleTriangles rest
        from rfl]
      simp only [List.length_cons, ih]
      omega

theorem assemble_get : ∀ (vs : List Vertex) (i : ℕ) (a b c : Vertex),
    vs[3 * i]? = some a → vs[3 * i + 1]? = some b → vs[3 * i + 2]? = some c →
    (assembleTriangles vs)[i]? = some (a, b, c)
  | [], i, a, b, c => by simp
  | [v], i, a, b, c => by
      intro _ h2 _
      rw [List.getElem?_eq_none
        (by simp only [List.length_cons, List.length_nil]; omega)] at h2
      exact absurd h2 (by simp)
  | [v, v2], i, a, b, c => by
      intro _ _ h3
      rw [List.getElem?_eq_none
        (by simp only [List.length_cons, List.length_nil]; omega)] at h3
      exact absurd h3 (by simp)
  | x :: y :: z :: rest, 0, a, b, c => by
      intro h1 h2 h3
      simp only [Nat.mul_zero, Nat.zero_add, List.getElem?_cons_zero,
        List.getElem?_cons_succ, Option.some.injEq] at h1 h2 h3
      simp [assembleTriangles, h1.symm, h2.symm, h3.symm]
  | x :: y :: z :: rest, i + 1, a, b, c => by
      intro h1 h2 h3
      have e1 : 3 * (i + 1) = 3 * i + 1 + 1 + 1 := by ring
      have e2 : 3 * (i + 1) + 1 = 3 * i + 1 + 1 + 1 + 1 := by ring
      have e3 : 3 * (i + 1) + 2 = 3 * i + 2 + 1 + 1 + 1 := by ring
      rw [e1, List.getElem?_cons_succ, List.getElem?_cons_succ,
        List.getElem?_cons_succ] at h1
      rw [e2, List.getElem?_cons_succ, List.getElem?_cons_succ,
        List.getElem?_cons_succ] at h2
      rw [e3, List.getElem?_cons_succ, List.getElem?_cons_succ,
        List.getElem?_cons_succ] at h3
      have h := assemble_get rest i a b c h1 h2 h3
      rw [show assembleTriangles (x :: y :: z :: rest) = (x, y, z) :: assembleTriangles rest
        from rfl]
      rw [List.getElem?_cons_succ]
      exact h

/-- C6: primitive assembly groups the transformed vertices strictly by
sequential index — triangle i is (v[3i], v[3i+1], v[3i+2]) — and produces
exactly len/3 triangles, so a trailing partial group of 1 or 2 vertices is
silently dropped. -/
theorem primitive_assembly_spec (vs : List Vertex) :
    (assembleTriangles vs).length = vs.length / 3
    ∧ ∀ i a b c, vs[3 * i]? = some a → vs[3 * i + 1]? = some b →
        vs[3 * i + 2]? = some c → (assembleTriangles vs)[i]? = some (a, b, c) :=
  ⟨assemble_length vs, fun i a b c h1 h2 h3 => assemble_get vs i a b c h1 h2 h3⟩

/-- A vertex tagged with an identifying x coordinate, for the C6 witness. -/
def mkV (n : ℚ) : Vertex := ⟨⟨n, 0, 0⟩, ⟨0, 0, 1⟩, (0, 0), ⟨1, 1, 1⟩, ⟨0, 0, 0⟩, ⟨0, 0, 0⟩⟩

def vs7 : List Vertex := [mkV 0, mkV 1, mkV 2, mkV 3, mkV 4, mkV 5, mkV 6]

/-- Witness for C6: seven vertices assemble into exactly two triangles (the
seventh vertex is dropped) and triangle 1 is (v3, v4, v5). -/
theorem primitive_assembly_spec_witness :
    (assembleTriangles vs7).length = vs7.length / 3
    ∧ (assembleTriangles vs7)[1]? = some (mkV 3, mkV 4, mkV 5) :=
  ⟨(primitive_assembly_spec vs7).1,
   (primitive_assembly_spec vs7).2 1 (mkV 3) (mkV 4) (mkV 5) rfl rfl rfl⟩

/-- A render pass as issued by the frame loop: which shader it uses and the
scale and translation passed to `create_model_matrix`. -/
structure RenderPass where
  shader : ShaderType
  scale : ℚ
  translation : V3
deriving DecidableEq, Repr

/-- main.rs frame loop body (lines 253–284): one pass draws the planet with
the selected shader (scale 1.0, translation (0,0,0), lines 185–187); then,
only when the selected shader is RockyPlanet, a second pass draws the moon
mesh with the Moon shader, scale 0.15, and a translation orbiting the origin
at radius 2.0 with angle time * 0.005 (cos for x, sin for z). -/
def framePasses (E : MathEnv) (current_shader : ShaderType) (time : ℕ) : List RenderPass :=
  let planet : RenderPass := ⟨current_shader, 1, ⟨0, 0, 0⟩⟩
  if current_shader = ShaderType.RockyPlanet then
    let orbit_radius : ℚ := 2
    let orbit_speed : ℚ := 0.005
    let moon_x := orbit_radius * E.cos ((time : ℚ) * orbit_speed)
    let moon_z := orbit_radius * E.sin ((time : ℚ) * orbit_speed)
    let moon_translation : V3 := ⟨moon_x, 0, moon_z⟩
    let moon_scale : ℚ := 0.15
    [planet, ⟨ShaderType.Moon, moon_scale, moon_translation⟩]
  else [planet]

/-- C10: the moon is drawn exactly on RockyPlanet frames — then the frame
issues the planet pass followed by a Moon-shader pass at scale 0.15
translated to radius 2.0 at angle time * 0.005 on the orbit; for every other
selected variant the frame issues exactly the one planet pass. -/
theorem moon_drawn_iff_rocky (E : MathEnv) (s : ShaderType) (t : ℕ) :
    (s = ShaderType.RockyPlanet →
      framePasses E s t =
        [⟨s, 1, ⟨0, 0, 0⟩⟩,
         ⟨ShaderType.Moon, 0.15,
          ⟨2 * E.cos ((t : ℚ) * 0.005), 0, 2 * E.sin ((t : ℚ) * 0.005)⟩⟩])
    ∧ (s ≠ ShaderType.RockyPlanet → framePasses E s t = [⟨s, 1, ⟨0, 0, 0⟩⟩]) := by
  constructor
  · intro h
    simp [framePasses, h]
  · intro h
    simp [framePasses, h]

/-- Witness for C10 at time 0: RockyPlanet frames carry the extra Moon pass,
GasGiant frames do not. -/
theorem moon_drawn_iff_rocky_witness :
    framePasses envEx ShaderType.RockyPlanet 0 =
      [⟨ShaderType.RockyPlanet, 1, ⟨0, 0, 0⟩⟩,
       ⟨ShaderType.Moon, 0.15,
        ⟨2 * envEx.cos (((0 : ℕ) : ℚ) * 0.005), 0, 2 * envEx.sin (((0 : ℕ) : ℚ) * 0.005)⟩⟩]
    ∧ framePasses envEx ShaderType.GasGiant 0 = [⟨ShaderType.GasGiant, 1, ⟨0, 0, 0⟩⟩] :=
  ⟨(moon_drawn_iff_rocky envEx ShaderType.RockyPlanet 0).1 rfl,
   (moon_drawn_iff_rocky envEx ShaderType.GasGiant 0).2 (by decide)⟩

end Lab4
